import Mathlib

/-!
Verification of the StudyFlow client against its specification.

The development shallowly embeds the gamification utility module
(levels, XP, badges, player-stats persistence), the task edit modal's
priority handling, the import/courses network handlers and the API
client configuration.  JavaScript numbers are modelled as `Int`
(all the values the claims concern are integers), storage and network
effects are modelled by passing the outcome of the effect explicitly,
and exceptions are modelled with `Except`.
-/

namespace StudyFlow

/-! ## Level table (`LEVELS` in the gamification module) -/

structure LevelEntry where
  level : Int
  xp : Int
  title : String
  color : String
deriving Repr, DecidableEq

def LEVELS : List LevelEntry :=
  [⟨1, 0, "🌱 Beginner", "#94A3B8"⟩,
   ⟨2, 100, "📚 Student", "#60A5FA"⟩,
   ⟨3, 250, "🎯 Focused", "#3B82F6"⟩,
   ⟨4, 500, "⚡ Productive", "#8B5CF6"⟩,
   ⟨5, 1000, "🔥 On Fire", "#F59E0B"⟩,
   ⟨6, 2000, "🚀 Achiever", "#10B981"⟩,
   ⟨7, 3500, "💎 Pro", "#06B6D4"⟩,
   ⟨8, 5500, "👑 Elite", "#EC4899"⟩,
   ⟨9, 8000, "🌟 Master", "#F43F5E"⟩,
   ⟨10, 12000, "🏆 Legend", "#F59E0B"⟩]

/-- `calculateLevel` iterates the table from the last entry down to the
first and returns the level of the first entry whose threshold is `≤ xp`;
we model the descending index loop as recursion over the reversed table. -/
def findLevelDesc : List LevelEntry → Int → Int
  | [], _ => 1
  | e :: rest, xp => if e.xp ≤ xp then e.level else findLevelDesc rest xp

def calculateLevel (xp : Int) : Int :=
  findLevelDesc LEVELS.reverse xp

/-- The specification's reading of `calculateLevel`: the level of the
greatest (last, since the table ascends) entry whose threshold is `≤ xp`. -/
def specLevel (xp : Int) : Int :=
  match (LEVELS.filter (fun e => decide (e.xp ≤ xp))).getLast? with
  | some e => e.level
  | none => 1

lemma LEVELS_reverse_eq :
    LEVELS.reverse =
      [⟨10, 12000, "🏆 Legend", "#F59E0B"⟩,
       ⟨9, 8000, "🌟 Master", "#F43F5E"⟩,
       ⟨8, 5500, "👑 Elite", "#EC4899"⟩,
       ⟨7, 3500, "💎 Pro", "#06B6D4"⟩,
       ⟨6, 2000, "🚀 Achiever", "#10B981"⟩,
       ⟨5, 1000, "🔥 On Fire", "#F59E0B"⟩,
       ⟨4, 500, "⚡ Productive", "#8B5CF6"⟩,
       ⟨3, 250, "🎯 Focused", "#3B82F6"⟩,
       ⟨2, 100, "📚 Student", "#60A5FA"⟩,
       ⟨1, 0, "🌱 Beginner", "#94A3B8"⟩] := by
  rfl

lemma calculateLevel_eq (xp : Int) :
    calculateLevel xp =
      if 12000 ≤ xp then 10
      else if 8000 ≤ xp then 9
      else if 5500 ≤ xp then 8
      else if 3500 ≤ xp then 7
      else if 2000 ≤ xp then 6
      else if 1000 ≤ xp then 5
      else if 500 ≤ xp then 4
      else if 250 ≤ xp then 3
      else if 100 ≤ xp then 2
      else if 0 ≤ xp then 1
      else 1 := by
  simp only [calculateLevel, LEVELS_reverse_eq, findLevelDesc]

lemma specLevel_eq_calculateLevel (xp : Int) : specLevel xp = calculateLevel xp := by
  rw [calculateLevel_eq]
  by_cases h1 : 12000 ≤ xp
  · simp [specLevel, LEVELS, List.filter, h1, show (8000:Int) ≤ xp by omega,
      show (5500:Int) ≤ xp by omega, show (3500:Int) ≤ xp by omega,
      show (2000:Int) ≤ xp by omega, show (1000:Int) ≤ xp by omega,
      show (500:Int) ≤ xp by omega, show (250:Int) ≤ xp by omega,
      show (100:Int) ≤ xp by omega, show (0:Int) ≤ xp by omega]
  by_cases h2 : 8000 ≤ xp
  · simp [specLevel, LEVELS, List.filter, h1, h2,
      show (5500:Int) ≤ xp by omega, show (3500:Int) ≤ xp by omega,
      show (2000:Int) ≤ xp by omega, show (1000:Int) ≤ xp by omega,
      show (500:Int) ≤ xp by omega, show (250:Int) ≤ xp by omega,
      show (100:Int) ≤ xp by omega, show (0:Int) ≤ xp by omega]
  by_cases h3 : 5500 ≤ xp
  · simp [specLevel, LEVELS, List.filter, h1, h2, h3,
      show (3500:Int) ≤ xp by omega,
      show (2000:Int) ≤ xp by omega, show (1000:Int) ≤ xp by omega,
      show (500:Int) ≤ xp by omega, show (250:Int) ≤ xp by omega,
      show (100:Int) ≤ xp by omega, show (0:Int) ≤ xp by omega]
  by_cases h4 : 3500 ≤ xp
  · simp [specLevel, LEVELS, List.filter, h1, h2, h3, h4,
      show (2000:Int) ≤ xp by omega, show (1000:Int) ≤ xp by omega,
      show (500:Int) ≤ xp by omega, show (250:Int) ≤ xp by omega,
      show (100:Int) ≤ xp by omega, show (0:Int) ≤ xp by omega]
  by_cases h5 : 2000 ≤ xp
  · simp [specLevel, LEVELS, List.filter, h1, h2, h3, h4, h5,
      show (1000:Int) ≤ xp by omega,
      show (500:Int) ≤ xp by omega, show (250:Int) ≤ xp by omega,
      show (100:Int) ≤ xp by omega, show (0:Int) ≤ xp by omega]
  by_cases h6 : 1000 ≤ xp
  · simp [specLevel, LEVELS, List.filter, h1, h2, h3, h4, h5, h6,
      show (500:Int) ≤ xp by omega, show (250:Int) ≤ xp by omega,
      show (100:Int) ≤ xp by omega, show (0:Int) ≤ xp by omega]
  by_cases h7 : 500 ≤ xp
  · simp [specLevel, LEVELS, List.filter, h1, h2, h3, h4, h5, h6, h7,
      show (250:Int) ≤ xp by omega,
      show (100:Int) ≤ xp by omega, show (0:Int) ≤ xp by omega]
  by_cases h8 : 250 ≤ xp
  · simp [specLevel, LEVELS, List.filter, h1, h2, h3, h4, h5, h6, h7, h8,
      show (100:Int) ≤ xp by omega, show (0:Int) ≤ xp by omega]
  by_cases h9 : 100 ≤ xp
  · simp [specLevel, LEVELS, List.filter, h1, h2, h3, h4, h5, h6, h7, h8, h9,
      show (0:Int) ≤ xp by omega]
  by_cases h10 : 0 ≤ xp
  · simp [specLevel, LEVELS, List.filter, h1, h2, h3, h4, h5, h6, h7, h8, h9, h10]
  · simp [specLevel, LEVELS, List.filter, h1, h2, h3, h4, h5, h6, h7, h8, h9, h10]

/-- C1: the XP-to-level calculation agrees with the ascending-table-lookup
reading for every non-negative XP, has the stated thresholds and levels,
is monotone in XP, and always lands in 1..10. -/
theorem calculateLevel_table_lookup_monotone_bounded :
    (LEVELS.map (fun e => (e.level, e.xp)) =
      [(1, 0), (2, 100), (3, 250), (4, 500), (5, 1000), (6, 2000),
       (7, 3500), (8, 5500), (9, 8000), (10, 12000)]) ∧
    (∀ xp : Int, 0 ≤ xp → calculateLevel xp = specLevel xp) ∧
    (∀ x y : Int, x ≤ y → calculateLevel x ≤ calculateLevel y) ∧
    (∀ xp : Int, 1 ≤ calculateLevel xp ∧ calculateLevel xp ≤ 10) := by
  refine ⟨by rfl, fun xp _ => (specLevel_eq_calculateLevel xp).symm,
    fun x y hxy => ?_, fun xp => ?_⟩
  · rw [calculateLevel_eq, calculateLevel_eq]
    omega
  · rw [calculateLevel_eq]
    omega

/-- Witness for C1 at concrete inputs. -/
theorem calculateLevel_table_lookup_monotone_bounded_witness :
    calculateLevel 250 = specLevel 250 ∧ calculateLevel 99 ≤ calculateLevel 12000 := by
  exact ⟨calculateLevel_table_lookup_monotone_bounded.2.1 250 (by decide),
    calculateLevel_table_lookup_monotone_bounded.2.2.1 99 12000 (by decide)⟩

/-! ## Player stats and badges -/

structure PlayerStats where
  totalXP : Int
  currentLevel : Int
  tasksCompleted : Int
  currentStreak : Int
  longestStreak : Int
  pomodoroSessions : Int
  totalStudyHours : Int
  badges : List String
  tasksCompletedOnTime : Int
  tasksCompletedToday : Int
  lastTaskDate : Option String
deriving Repr, DecidableEq

def getDefaultStats : PlayerStats :=
  ⟨0, 1, 0, 0, 0, 0, 0, [], 0, 0, none⟩

structure Badge where
  id : String
  name : String
  description : String
  icon : String
  color : String
  requirement : String
  unlocked : Bool
deriving Repr, DecidableEq

def BADGES : List Badge :=
  [⟨"first_task", "First Steps", "Complete your first task", "footsteps",
    "#60A5FA", "Complete 1 task", false⟩,
   ⟨"week_warrior", "Week Warrior", "Maintain a 7-day streak", "flame",
    "#F59E0B", "7 day streak", false⟩,
   ⟨"early_bird", "Early Bird", "Complete a task before 8 AM", "sunny",
    "#FBBF24", "Task completed before 8 AM", false⟩,
   ⟨"night_owl", "Night Owl", "Complete a task after 10 PM", "moon",
    "#8B5CF6", "Task completed after 10 PM", false⟩,
   ⟨"speedster", "Speedster", "Complete 5 tasks in one day", "flash",
    "#3B82F6", "5 tasks in one day", false⟩,
   ⟨"perfectionist", "Perfectionist", "Complete 10 tasks without missing a deadline",
    "checkmark-done", "#10B981", "10 tasks on time", false⟩,
   ⟨"pomodoro_master", "Pomodoro Master", "Complete 25 Pomodoro sessions", "timer",
    "#EF4444", "25 Pomodoro sessions", false⟩,
   ⟨"study_marathon", "Study Marathon", "Log 40+ hours of study time", "school",
    "#10B981", "40+ study hours", false⟩]

/-- The `switch (badge.id)` in `checkForNewBadges`; `hour` is the value of
`new Date().getHours()` read inside the function, made an explicit input. -/
def badgeUnlockCondition (hour : Int) (stats : PlayerStats) (id : String) : Bool :=
  if id = "first_task" then decide (stats.tasksCompleted ≥ 1)
  else if id = "week_warrior" then decide (stats.currentStreak ≥ 7)
  else if id = "early_bird" then decide (hour < 8) && decide (stats.tasksCompletedToday > 0)
  else if id = "night_owl" then decide (hour ≥ 22) && decide (stats.tasksCompletedToday > 0)
  else if id = "speedster" then decide (stats.tasksCompletedToday ≥ 5)
  else if id = "perfectionist" then decide (stats.tasksCompletedOnTime ≥ 10)
  else if id = "pomodoro_master" then decide (stats.pomodoroSessions ≥ 25)
  else if id = "study_marathon" then decide (stats.totalStudyHours ≥ 40)
  else false

/-- `checkForNewBadges` walks `BADGES` in order, skips badges already in
`stats.badges`, and collects those whose unlock condition holds. -/
def checkForNewBadges (hour : Int) (stats : PlayerStats) : List Badge :=
  BADGES.filter (fun b => !(stats.badges.contains b.id) && badgeUnlockCondition hour stats b.id)

/-- Badges whose unlock predicate does not mention the wall-clock hour. -/
def hourIndependentBadge (b : Badge) : Bool :=
  !(b.id == "early_bird") && !(b.id == "night_owl")

/-- C2 counterexample: on the same `PlayerStats` value (one completed task
today, no badges yet), `checkForNewBadges` evaluated at hour 7 returns the
Early Bird badge while at hour 12 it does not, so the result does depend on
when the check runs. -/
theorem checkForNewBadges_hour_dependent :
    checkForNewBadges 7 { getDefaultStats with tasksCompleted := 1, tasksCompletedToday := 1 } ≠
      checkForNewBadges 12 { getDefaultStats with tasksCompleted := 1, tasksCompletedToday := 1 } := by
  decide

/-- C2 amended: `checkForNewBadges` is a pure function of the stats and the
current hour; the hour influences only the `early_bird` and `night_owl`
badges (restricted to the other badges, evaluations at any two hours on the
same stats agree), and a badge already listed in `stats.badges` is never
returned again. -/
theorem checkForNewBadges_counters_only :
    (∀ hour stats, ∀ b ∈ checkForNewBadges hour stats, b.id ∉ stats.badges) ∧
    (∀ h1 h2 stats,
      (checkForNewBadges h1 stats).filter hourIndependentBadge =
        (checkForNewBadges h2 stats).filter hourIndependentBadge) := by
  constructor
  · intro hour stats b hb
    rw [checkForNewBadges, List.mem_filter] at hb
    have h1 : stats.badges.contains b.id = false := by
      rcases Bool.and_eq_true_iff.mp hb.2 with ⟨hcontains, -⟩
      simpa using hcontains
    simpa using h1
  · intro h1 h2 stats
    rw [checkForNewBadges, checkForNewBadges, List.filter_filter, List.filter_filter]
    refine List.filter_congr ?_
    intro b hb
    simp only [BADGES, List.mem_cons, List.not_mem_nil, or_false] at hb
    rcases hb with rfl | rfl | rfl | rfl | rfl | rfl | rfl | rfl <;> rfl

/-- Witness for C2 amended at concrete inputs. -/
theorem checkForNewBadges_counters_only_witness :
    (⟨"first_task", "First Steps", "Complete your first task", "footsteps",
      "#60A5FA", "Complete 1 task", false⟩ : Badge).id ∉
        ({ getDefaultStats with tasksCompleted := 1 } : PlayerStats).badges ∧
    (checkForNewBadges 7 getDefaultStats).filter hourIndependentBadge =
      (checkForNewBadges 23 getDefaultStats).filter hourIndependentBadge :=
  ⟨checkForNewBadges_counters_only.1 7 { getDefaultStats with tasksCompleted := 1 }
      ⟨"first_task", "First Steps", "Complete your first task", "footsteps",
       "#60A5FA", "Complete 1 task", false⟩ (by decide),
   checkForNewBadges_counters_only.2 7 23 getDefaultStats⟩

/-! ## Stats persistence (`loadPlayerStats` / `savePlayerStats`)

The AsyncStorage read is modelled by its outcome: an `Except` that either
throws, returns no blob (`none`), or returns a string; `JSON.parse` is an
explicit fallible parameter.  A propagated exception would be an `.error`
result; the `try`/`catch` in the source makes both functions total. -/

def loadPlayerStats (read : Except String (Option String))
    (parse : String → Except String PlayerStats) : Except String PlayerStats :=
  match read with
  | .error _ => .ok getDefaultStats
  | .ok none => .ok getDefaultStats
  | .ok (some data) =>
    if data = "" then .ok getDefaultStats
    else
      match parse data with
      | .error _ => .ok getDefaultStats
      | .ok stats => .ok stats

def savePlayerStats (write : Except String Unit) : Except String Unit :=
  match write with
  | .ok _ => .ok ()
  | .error _ => .ok ()

/-- C3: `loadPlayerStats` never propagates an error — on a thrown read or a
missing blob it returns the default stats (all-zero counters, level 1, no
badges) — and `savePlayerStats` swallows any storage error. -/
theorem playerStats_storage_errors_ignored :
    (∀ read parse, ∃ s, loadPlayerStats read parse = .ok s) ∧
    (∀ msg parse, loadPlayerStats (.error msg) parse = .ok getDefaultStats) ∧
    (∀ parse, loadPlayerStats (.ok none) parse = .ok getDefaultStats) ∧
    getDefaultStats = ⟨0, 1, 0, 0, 0, 0, 0, [], 0, 0, none⟩ ∧
    (∀ write, savePlayerStats write = .ok ()) := by
  refine ⟨?_, fun msg parse => rfl, fun parse => rfl, rfl, ?_⟩
  · intro read parse
    rcases read with msg | data
    · exact ⟨getDefaultStats, rfl⟩
    rcases data with _ | d
    · exact ⟨getDefaultStats, rfl⟩
    by_cases hd : d = ""
    · exact ⟨getDefaultStats, by simp [loadPlayerStats, hd]⟩
    rcases hp : parse d with e | s
    · exact ⟨getDefaultStats, by simp [loadPlayerStats, hd, hp]⟩
    · exact ⟨s, by simp [loadPlayerStats, hd, hp]⟩
  · intro write
    rcases write with e | u <;> rfl

/-! ## Task XP (`calculateTaskXP`) -/

structure TaskInput where
  priority : String
  estimated_duration : Option Int
  due_date : Option String
deriving Repr, DecidableEq

/-- `calculateTaskXP`: base 10, a bonus of 15/10/5 for priority
high/medium/low (nothing for any other string, including urgent), and a
duration bonus `min(estimated_duration * 2, 30)` when the duration is
truthy (present and nonzero). -/
def calculateTaskXP (task : TaskInput) : Int :=
  let base0 : Int := 10
  let base1 :=
    if task.priority = "high" then base0 + 15
    else if task.priority = "medium" then base0 + 10
    else if task.priority = "low" then base0 + 5
    else base0
  match task.estimated_duration with
  | some d => if d ≠ 0 then base1 + min (d * 2) 30 else base1
  | none => base1

/-- C6 counterexample: with a negative estimated duration the duration
"bonus" is negative and the result drops below 10: a task with priority
urgent and estimated duration -1 yields 8 XP. -/
theorem calculateTaskXP_below_range :
    calculateTaskXP ⟨"urgent", some (-1), none⟩ = 8 ∧
      ¬(10 ≤ calculateTaskXP ⟨"urgent", some (-1), none⟩) := by
  decide

/-- C6 amended: the priority bonus is exactly 15/10/5 for high/medium/low
and 0 for urgent, so an urgent task earns strictly less XP than an
otherwise identical low/medium/high task; and whenever the estimated
duration is absent or non-negative the result lies between 10 and 55. -/
theorem calculateTaskXP_priority_bonus_bounds :
    (∀ d dd, calculateTaskXP ⟨"high", d, dd⟩ = calculateTaskXP ⟨"urgent", d, dd⟩ + 15 ∧
      calculateTaskXP ⟨"medium", d, dd⟩ = calculateTaskXP ⟨"urgent", d, dd⟩ + 10 ∧
      calculateTaskXP ⟨"low", d, dd⟩ = calculateTaskXP ⟨"urgent", d, dd⟩ + 5) ∧
    (∀ d dd p, (p = "low" ∨ p = "medium" ∨ p = "high") →
      calculateTaskXP ⟨"urgent", d, dd⟩ < calculateTaskXP ⟨p, d, dd⟩) ∧
    (∀ p d dd, (∀ x, d = some x → 0 ≤ x) →
      10 ≤ calculateTaskXP ⟨p, d, dd⟩ ∧ calculateTaskXP ⟨p, d, dd⟩ ≤ 55) := by
  refine ⟨fun d dd => ?_, fun d dd p hp => ?_, fun p d dd hd => ?_⟩
  · rcases d with _ | x
    · simp [calculateTaskXP]
    · by_cases hx : x = 0 <;> simp [calculateTaskXP, hx] <;> omega
  · rcases d with _ | x
    · rcases hp with rfl | rfl | rfl <;> simp [calculateTaskXP]
    · rcases hp with rfl | rfl | rfl <;> by_cases hx : x = 0 <;>
        simp [calculateTaskXP, hx] <;> omega
  · rcases d with _ | x
    · unfold calculateTaskXP
      simp only
      split_ifs <;> omega
    · have hx0 : 0 ≤ x := hd x rfl
      unfold calculateTaskXP
      by_cases hx : x = 0 <;> simp [hx] <;> split_ifs <;> omega

/-- Witness for C6 amended at concrete inputs. -/
theorem calculateTaskXP_priority_bonus_bounds_witness :
    calculateTaskXP ⟨"urgent", some 120, none⟩ < calculateTaskXP ⟨"high", some 120, none⟩ ∧
    (10 ≤ calculateTaskXP ⟨"medium", some 15, none⟩ ∧
      calculateTaskXP ⟨"medium", some 15, none⟩ ≤ 55) :=
  ⟨calculateTaskXP_priority_bonus_bounds.2.1 (some 120) none "high" (by decide),
   calculateTaskXP_priority_bonus_bounds.2.2 "medium" (some 15) none
     (fun x hx => by injection hx with h; omega)⟩

/-! ## Awarding XP (`awardXP`, `completeTask`, `completePomodoroSession`)

Each operation loads the stats, updates them and saves; the explicit
`PlayerStats` argument is the loaded value and the stats in the result are
the value handed to `savePlayerStats`.  The wall-clock readings
(`new Date()`-derived: the current hour, today's and yesterday's date
strings, and the on-time comparison against the due date) are explicit
inputs. -/

structure AwardXPResult where
  levelUp : Bool
  newLevel : Option Int
  stats : PlayerStats
deriving Repr, DecidableEq

def awardXP (stats : PlayerStats) (xpAmount : Int) : AwardXPResult :=
  let oldLevel := stats.currentLevel
  let newTotal := stats.totalXP + xpAmount
  let updated := { stats with totalXP := newTotal, currentLevel := calculateLevel newTotal }
  let lvlUp := decide (oldLevel < updated.currentLevel)
  ⟨lvlUp, if lvlUp then some updated.currentLevel else none, updated⟩

/-- `[...new Set([...current, ...newIds])]`: append and keep first
occurrences. -/
def setInsert (xs : List String) (y : String) : List String :=
  if xs.contains y then xs else xs ++ [y]

def mergeBadgeIds (current newIds : List String) : List String :=
  (current ++ newIds).foldl setInsert []

structure CompleteTaskResult where
  xp : Int
  levelUp : Bool
  newBadges : List Badge
  persistedStats : PlayerStats
deriving Repr, DecidableEq

def completeTask (stats0 : PlayerStats) (task : TaskInput) (onTime : Bool)
    (today yesterday : String) (hour : Int) : CompleteTaskResult :=
  let xp := calculateTaskXP task
  let s1 := { stats0 with tasksCompleted := stats0.tasksCompleted + 1,
                          tasksCompletedToday := stats0.tasksCompletedToday + 1 }
  let s2 := if task.due_date.isSome ∧ onTime = true
    then { s1 with tasksCompletedOnTime := s1.tasksCompletedOnTime + 1 } else s1
  let s3 :=
    if s2.lastTaskDate ≠ some today then
      let sA := if s2.lastTaskDate = some yesterday
        then { s2 with currentStreak := s2.currentStreak + 1 }
        else { s2 with currentStreak := 1 }
      let sB := if sA.longestStreak < sA.currentStreak
        then { sA with longestStreak := sA.currentStreak } else sA
      { sB with lastTaskDate := some today, tasksCompletedToday := 1 }
    else s2
  let newBadges := checkForNewBadges hour s3
  let s4 := { s3 with badges := mergeBadgeIds s3.badges (newBadges.map Badge.id) }
  let result := awardXP s4 xp
  ⟨xp, result.levelUp, newBadges, result.stats⟩

def completePomodoroSession (stats0 : PlayerStats) (hour : Int) : PlayerStats :=
  let s1 := { stats0 with pomodoroSessions := stats0.pomodoroSessions + 1 }
  let newBadges := checkForNewBadges hour s1
  let s2 := { s1 with badges := mergeBadgeIds s1.badges (newBadges.map Badge.id) }
  (awardXP s2 5).stats

/-- C5: after `awardXP` (and after `completeTask` and
`completePomodoroSession`, which delegate to it) the persisted stats
satisfy `currentLevel = calculateLevel totalXP`, and the returned
`levelUp` flag is set exactly when the recomputed level strictly exceeds
the level stored before the call. -/
theorem awardXP_level_invariant :
    (∀ stats xp, (awardXP stats xp).stats.totalXP = stats.totalXP + xp ∧
      (awardXP stats xp).stats.currentLevel =
        calculateLevel ((awardXP stats xp).stats.totalXP)) ∧
    (∀ stats xp, (awardXP stats xp).levelUp =
      decide (stats.currentLevel < calculateLevel (stats.totalXP + xp))) ∧
    (∀ stats task onTime today yesterday hour,
      (completeTask stats task onTime today yesterday hour).persistedStats.currentLevel =
        calculateLevel
          ((completeTask stats task onTime today yesterday hour).persistedStats.totalXP)) ∧
    (∀ stats hour, (completePomodoroSession stats hour).currentLevel =
      calculateLevel ((completePomodoroSession stats hour).totalXP)) :=
  ⟨fun _ _ => ⟨rfl, rfl⟩, fun _ _ => rfl, fun _ _ _ _ _ _ => rfl, fun _ _ => rfl⟩

/-! ## Level progress (`getXPForNextLevel`, `getXPForCurrentLevel`,
`getLevelProgress`)

`LEVELS.find(...)` is modelled by first-match recursion; the JS division
is modelled in `ℚ`, which is exact on the integer inputs involved.  The
divide-by-zero (JS `NaN`) hazard is captured by `levelProgressDivisor`. -/

def findXPByLevel : List LevelEntry → Int → Option Int
  | [], _ => none
  | e :: rest, l => if e.level = l then some e.xp else findXPByLevel rest l

def lastLevelXP : Int :=
  match LEVELS.getLast? with
  | some e => e.xp
  | none => 0

def getXPForNextLevel (currentLevel : Int) : Int :=
  match findXPByLevel LEVELS (currentLevel + 1) with
  | some xp => xp
  | none => lastLevelXP

def getXPForCurrentLevel (currentLevel : Int) : Int :=
  match findXPByLevel LEVELS currentLevel with
  | some xp => xp
  | none => 0

def levelProgressDivisor (stats : PlayerStats) : Int :=
  getXPForNextLevel stats.currentLevel - getXPForCurrentLevel stats.currentLevel

def getLevelProgress (stats : PlayerStats) : ℚ :=
  let currentLevelXP : ℚ := (getXPForCurrentLevel stats.currentLevel : Int)
  let nextLevelXP : ℚ := (getXPForNextLevel stats.currentLevel : Int)
  min (max (((stats.totalXP : Int) - currentLevelXP) / (nextLevelXP - currentLevelXP)) 0) 1

set_option maxHeartbeats 800000 in
lemma getXPForCurrentLevel_eq (l : Int) :
    getXPForCurrentLevel l =
      if 1 = l then 0 else if 2 = l then 100 else if 3 = l then 250
      else if 4 = l then 500 else if 5 = l then 1000 else if 6 = l then 2000
      else if 7 = l then 3500 else if 8 = l then 5500 else if 9 = l then 8000
      else if 10 = l then 12000 else 0 := by
  simp only [getXPForCurrentLevel, LEVELS, findXPByLevel]
  split_ifs <;> rfl

set_option maxHeartbeats 800000 in
lemma getXPForNextLevel_eq (l : Int) :
    getXPForNextLevel l =
      if 1 = l + 1 then 0 else if 2 = l + 1 then 100 else if 3 = l + 1 then 250
      else if 4 = l + 1 then 500 else if 5 = l + 1 then 1000 else if 6 = l + 1 then 2000
      else if 7 = l + 1 then 3500 else if 8 = l + 1 then 5500 else if 9 = l + 1 then 8000
      else if 10 = l + 1 then 12000 else 12000 := by
  simp only [getXPForNextLevel, LEVELS, findXPByLevel, lastLevelXP]
  split_ifs <;> rfl

/-- C10 counterexample: a `PlayerStats` with `currentLevel = 0` is strictly
below the maximum level 10, yet the divisor `getXPForNextLevel 0 -
getXPForCurrentLevel 0` is `0 - 0 = 0` (level 1 has threshold 0 and level 0
is not in the table), so "currentLevel < 10" does not make the divisor
nonzero. -/
theorem levelProgressDivisor_zero_below_max :
    ({ getDefaultStats with currentLevel := 0 } : PlayerStats).currentLevel < 10 ∧
      levelProgressDivisor { getDefaultStats with currentLevel := 0 } = 0 := by
  decide

/-- C10 amended: for every `PlayerStats` whose `currentLevel` is strictly
below 10 and different from 0, the divisor is nonzero and the clamped
progress lies between 0 and 1; at level 10 — and also at level 0 — the
divisor is zero. -/
theorem getLevelProgress_bounds_and_divisor :
    (∀ stats : PlayerStats, stats.currentLevel < 10 → stats.currentLevel ≠ 0 →
      levelProgressDivisor stats ≠ 0 ∧
        0 ≤ getLevelProgress stats ∧ getLevelProgress stats ≤ 1) ∧
    (∀ stats : PlayerStats, stats.currentLevel = 10 → levelProgressDivisor stats = 0) := by
  constructor
  · intro stats h10 h0
    refine ⟨?_, le_min (le_max_right _ _) zero_le_one, min_le_right _ _⟩
    rw [levelProgressDivisor, getXPForCurrentLevel_eq, getXPForNextLevel_eq]
    omega
  · intro stats h
    rw [levelProgressDivisor, getXPForCurrentLevel_eq, getXPForNextLevel_eq]
    omega

/-- Witness for C10 amended: the default stats are at level 1. -/
theorem getLevelProgress_bounds_and_divisor_witness :
    levelProgressDivisor getDefaultStats ≠ 0 ∧
      0 ≤ getLevelProgress getDefaultStats ∧ getLevelProgress getDefaultStats ≤ 1 :=
  getLevelProgress_bounds_and_divisor.1 getDefaultStats (by decide) (by decide)

/-! ## Task edit modal priority handling

`useEffect` initialises the priority state with `task.priority || 'medium'`
(JS `||`: `null`, `undefined` and the empty string fall back to
`'medium'`); the four priority buttons are the only way to change it, and
`handleSave` passes the current state to `onSave`. -/

def priorityValues : List String := ["low", "medium", "high", "urgent"]

def initPriority : Option String → String
  | none => "medium"
  | some p => if p = "" then "medium" else p

/-- The priority field of the object passed to `onSave`: the initial state
possibly overwritten by a sequence of button selections (each drawn from
the four-value button row). -/
def savedPriority (taskPriority : Option String) (selections : List String) : String :=
  selections.foldl (fun _ sel => sel) (initPriority taskPriority)

/-- C4 counterexample: a task arriving with the out-of-set priority
`"critical"` is saved unchanged when the user touches no priority button —
the modal does not map it into the four allowed strings. -/
theorem savedPriority_not_validated :
    savedPriority (some "critical") [] = "critical" ∧ "critical" ∉ priorityValues := by
  decide

lemma foldl_select_mem {P : String → Prop} :
    ∀ (l : List String) (a : String), (l = [] → P a) → (∀ s ∈ l, P s) →
      P (l.foldl (fun _ sel => sel) a)
  | [], a, ha, _ => ha rfl
  | x :: xs, _, _, hl =>
    foldl_select_mem xs x (fun _ => hl x (List.mem_cons_self x xs))
      (fun s hs => hl s (List.mem_cons_of_mem x hs))

/-- C4 amended: the modal replaces a null/absent/empty incoming priority by
`'medium'` and every button selection is one of the four values, so the
priority passed to `onSave` is one of `'low'`, `'medium'`, `'high'`,
`'urgent'` whenever the user selects a priority or the incoming priority is
null, empty, or itself one of the four; an out-of-set non-empty incoming
priority is passed through unchanged. -/
theorem savedPriority_in_set :
    ∀ (p : Option String) (sels : List String),
      (∀ s ∈ sels, s ∈ priorityValues) →
      (sels ≠ [] ∨ p = none ∨ p = some "" ∨ ∃ v, p = some v ∧ v ∈ priorityValues) →
      savedPriority p sels ∈ priorityValues := by
  intro p sels hsels hcase
  refine foldl_select_mem sels (initPriority p) (fun hnil => ?_) hsels
  rcases hcase with hne | rfl | rfl | ⟨v, rfl, hv⟩
  · exact absurd hnil hne
  · decide
  · decide
  · have hv4 : v = "low" ∨ v = "medium" ∨ v = "high" ∨ v = "urgent" := by
      simpa [priorityValues] using hv
    have hv' : v ≠ "" := by
      rcases hv4 with rfl | rfl | rfl | rfl <;> decide
    simpa [initPriority, hv'] using hv

/-- Witness for C4 amended at concrete inputs. -/
theorem savedPriority_in_set_witness :
    savedPriority (some "critical") ["high"] ∈ priorityValues :=
  savedPriority_in_set (some "critical") ["high"] (by decide) (Or.inl (by decide))

/-! ## API client configuration and auth headers -/

def API_BASE_URL : String := "http://172.20.10.2:5050/v1"

/-- The base URL used by the legacy screen in `AppOld`. -/
def API_BASE_URL_localhost : String := "http://localhost:5050/v1"

structure Session where
  access_token : String
deriving Repr, DecidableEq

/-- `getAuthHeaders`: `{ Authorization: Bearer <token> }` when
`session?.access_token` is truthy, `{}` otherwise. -/
def getAuthHeaders : Option Session → List (String × String)
  | some s => if s.access_token ≠ "" then [("Authorization", "Bearer " ++ s.access_token)] else []
  | none => []

/-- Every fetch target in the screens, as (base, path appended to it);
dynamic path segments are parameters. -/
def requestTargets (taskId courseId userId period : String) : List (String × String) :=
  [(API_BASE_URL, "/ics/sync"),
   (API_BASE_URL, "/extract-deadlines"),
   (API_BASE_URL, "/import-ics"),
   (API_BASE_URL, "/courses"),
   (API_BASE_URL, "/courses/" ++ courseId),
   (API_BASE_URL, "/profile"),
   (API_BASE_URL, "/tasks"),
   (API_BASE_URL, "/tasks/" ++ taskId),
   (API_BASE_URL, "/tasks/" ++ taskId ++ "/status"),
   (API_BASE_URL, "/tasks/today"),
   (API_BASE_URL, "/today-tasks"),
   (API_BASE_URL, "/next-action"),
   (API_BASE_URL, "/stats?period=" ++ period),
   (API_BASE_URL_localhost, "/tasks/today?user_id=" ++ userId),
   (API_BASE_URL_localhost, "/next-action?user_id=" ++ userId)]

def requestURL (t : String × String) : String := t.1 ++ t.2

/-- C8: every request URL is a base ending in `/v1` with a path appended,
and `getAuthHeaders` yields exactly the bearer Authorization header when a
session with an access token exists and an empty record otherwise. -/
theorem requests_versioned_and_bearer_auth :
    ((∃ pre, API_BASE_URL = pre ++ "/v1") ∧
      (∃ pre, API_BASE_URL_localhost = pre ++ "/v1")) ∧
    (∀ taskId courseId userId period,
      ∀ t ∈ requestTargets taskId courseId userId period,
        (t.1 = API_BASE_URL ∨ t.1 = API_BASE_URL_localhost) ∧ requestURL t = t.1 ++ t.2) ∧
    getAuthHeaders none = [] ∧
    (∀ tok, tok ≠ "" → getAuthHeaders (some ⟨tok⟩) = [("Authorization", "Bearer " ++ tok)]) ∧
    getAuthHeaders (some ⟨""⟩) = [] := by
  refine ⟨⟨⟨"http://172.20.10.2:5050", rfl⟩, ⟨"http://localhost:5050", rfl⟩⟩,
    ?_, rfl, ?_, by simp [getAuthHeaders]⟩
  · intro taskId courseId userId period t ht
    simp only [requestTargets, List.mem_cons, List.not_mem_nil, or_false] at ht
    rcases ht with rfl | rfl | rfl | rfl | rfl | rfl | rfl | rfl | rfl | rfl | rfl | rfl |
      rfl | rfl | rfl <;>
      first
        | exact ⟨Or.inl rfl, rfl⟩
        | exact ⟨Or.inr rfl, rfl⟩
  · intro tok htok
    simp [getAuthHeaders, htok]

/-- Witness for C8 at concrete inputs. -/
theorem requests_versioned_and_bearer_auth_witness :
    (((API_BASE_URL, "/courses").1 = API_BASE_URL ∨
      (API_BASE_URL, "/courses").1 = API_BASE_URL_localhost) ∧
      requestURL (API_BASE_URL, "/courses") = (API_BASE_URL, "/courses").1 ++
        (API_BASE_URL, "/courses").2) ∧
    getAuthHeaders (some ⟨"tok"⟩) = [("Authorization", "Bearer " ++ "tok")] :=
  ⟨requests_versioned_and_bearer_auth.2.1 "t" "c" "u" "p" (API_BASE_URL, "/courses")
      (by simp [requestTargets]),
   requests_versioned_and_bearer_auth.2.2.2.1 "tok" (by decide)⟩

/-! ## Network handlers (`handleIcsSync`, `handlePdfUpload`, courses
`load`/`saveCourse`)

A handler invocation is modelled by the outcomes of its effects: the fetch
outcome (an exception, or a response with `ok`, an HTTP status, and a
fallible `json()` body), and for the PDF handler the document-picker
outcome.  The model records the issued requests, the `Alert.alert` calls,
the error message stored in component state, and any exception the
function would let escape. -/

structure ApiJson where
  time_blocks_created : Int
  tasks_count : Int
  detail : Option String
deriving Repr, DecidableEq

inductive FetchOutcome where
  | thrown (msg : String)
  | response (ok : Bool) (status : Int) (body : Except String ApiJson)
deriving Repr

structure HandlerResult where
  requests : List String
  alerts : List (String × String)
  storedError : Option String
  thrownToCaller : Option String
deriving Repr, DecidableEq

def handleIcsSync (icsUrl : String) (outcome : FetchOutcome) : HandlerResult :=
  if icsUrl.trim = "" then
    ⟨[], [("Erreur", "Veuillez entrer une URL ICS")], none, none⟩
  else
    match outcome with
    | .thrown _ =>
      ⟨[API_BASE_URL ++ "/ics/sync"],
       [("Erreur", "Impossible de se connecter au serveur")], none, none⟩
    | .response ok _ body =>
      match body with
      | .error _ =>
        ⟨[API_BASE_URL ++ "/ics/sync"],
         [("Erreur", "Impossible de se connecter au serveur")], none, none⟩
      | .ok data =>
        if ok then
          ⟨[API_BASE_URL ++ "/ics/sync"],
           [("Succès", toString data.time_blocks_created ++ " cours importés")], none, none⟩
        else
          ⟨[API_BASE_URL ++ "/ics/sync"],
           [("Erreur", data.detail.getD "Erreur lors de l\x27import ICS")], none, none⟩

/-- The document-picker outcome: an exception, a cancelled picker, or a
picked file (its URI). -/
inductive PickOutcome where
  | thrown (msg : String)
  | canceled
  | picked (uri : String)
deriving Repr, DecidableEq

def handlePdfUpload (pick : PickOutcome) (outcome : FetchOutcome) : HandlerResult :=
  match pick with
  | .thrown _ => ⟨[], [("Erreur", "Impossible d\x27importer le PDF")], none, none⟩
  | .canceled => ⟨[], [], none, none⟩
  | .picked _ =>
    match outcome with
    | .thrown _ =>
      ⟨[API_BASE_URL ++ "/extract-deadlines"],
       [("Erreur", "Impossible d\x27importer le PDF")], none, none⟩
    | .response ok _ body =>
      match body with
      | .error _ =>
        ⟨[API_BASE_URL ++ "/extract-deadlines"],
         [("Erreur", "Impossible d\x27importer le PDF")], none, none⟩
      | .ok data =>
        if ok then
          ⟨[API_BASE_URL ++ "/extract-deadlines"],
           [("Succès", toString data.tasks_count ++ " tâches extraites avec l\x27IA")],
           none, none⟩
        else
          ⟨[API_BASE_URL ++ "/extract-deadlines"],
           [("Erreur", data.detail.getD "Erreur lors de l\x27extraction")], none, none⟩

def loadCourses (outcome : FetchOutcome) : HandlerResult :=
  match outcome with
  | .thrown msg =>
    ⟨[API_BASE_URL ++ "/courses"], [],
     some (if msg = "" then "Failed to load courses" else msg), none⟩
  | .response ok status body =>
    if ok then
      match body with
      | .error msg =>
        ⟨[API_BASE_URL ++ "/courses"], [],
         some (if msg = "" then "Failed to load courses" else msg), none⟩
      | .ok _ => ⟨[API_BASE_URL ++ "/courses"], [], none, none⟩
    else
      ⟨[API_BASE_URL ++ "/courses"], [], some ("HTTP " ++ toString status), none⟩

def saveCourse (name : String) (outcome : FetchOutcome) : HandlerResult :=
  if name.trim = "" then ⟨[], [], some "Le nom du cours est requis", none⟩
  else
    match outcome with
    | .thrown msg =>
      ⟨[API_BASE_URL ++ "/courses"], [],
       some (if msg = "" then "Erreur lors de la création" else msg), none⟩
    | .response ok status body =>
      if ok then
        match body with
        | .error msg =>
          ⟨[API_BASE_URL ++ "/courses"], [],
           some (if msg = "" then "Erreur lors de la création" else msg), none⟩
        | .ok _ => ⟨[API_BASE_URL ++ "/courses"], [], none, none⟩
      else
        ⟨[API_BASE_URL ++ "/courses"], [], some ("HTTP " ++ toString status), none⟩

/-- C7: each handler issues at most one request, never lets an exception
escape, and surfaces a thrown error as an alert or a stored error
message. -/
theorem network_errors_handled_at_call_site :
    (∀ url outcome, (handleIcsSync url outcome).requests.length ≤ 1 ∧
      (handleIcsSync url outcome).thrownToCaller = none ∧
      (∀ msg, outcome = .thrown msg →
        (handleIcsSync url outcome).alerts ≠ [] ∨
          (handleIcsSync url outcome).storedError ≠ none)) ∧
    (∀ pick outcome, (handlePdfUpload pick outcome).requests.length ≤ 1 ∧
      (handlePdfUpload pick outcome).thrownToCaller = none ∧
      (∀ uri msg, pick = .picked uri → outcome = .thrown msg →
        (handlePdfUpload pick outcome).alerts ≠ [] ∨
          (handlePdfUpload pick outcome).storedError ≠ none)) ∧
    (∀ outcome, (loadCourses outcome).requests.length ≤ 1 ∧
      (loadCourses outcome).thrownToCaller = none ∧
      (∀ msg, outcome = .thrown msg → (loadCourses outcome).storedError ≠ none)) ∧
    (∀ name outcome, (saveCourse name outcome).requests.length ≤ 1 ∧
      (saveCourse name outcome).thrownToCaller = none ∧
      (∀ msg, outcome = .thrown msg →
        (saveCourse name outcome).storedError ≠ none)) := by
  refine ⟨fun url outcome => ?_, fun pick outcome => ?_, fun outcome => ?_,
    fun name outcome => ?_⟩
  · by_cases h : url.trim = ""
    · simp [handleIcsSync, h]
    · rcases outcome with msg | ⟨ok, status, body⟩
      · simp [handleIcsSync, h]
      · rcases body with e | d
        · simp [handleIcsSync, h]
        · rcases ok <;> simp [handleIcsSync, h]
  · rcases pick with msg | _ | uri
    · simp [handlePdfUpload]
    · simp [handlePdfUpload]
    · rcases outcome with msg | ⟨ok, status, body⟩
      · simp [handlePdfUpload]
      · rcases body with e | d
        · simp [handlePdfUpload]
        · rcases ok <;> simp [handlePdfUpload]
  · rcases outcome with msg | ⟨ok, status, body⟩
    · by_cases hmsg : msg = "" <;> simp [loadCourses, hmsg]
    · rcases body with e | d
      · rcases ok <;> simp [loadCourses]
      · rcases ok <;> simp [loadCourses]
  · by_cases h : name.trim = ""
    · simp [saveCourse, h]
    · rcases outcome with msg | ⟨ok, status, body⟩
      · by_cases hmsg : msg = "" <;> simp [saveCourse, h, hmsg]
      · rcases body with e | d
        · rcases ok <;> simp [saveCourse, h]
        · rcases ok <;> simp [saveCourse, h]

/-- Witness for C7: a thrown ICS sync surfaces an alert. -/
theorem network_errors_handled_at_call_site_witness :
    (handleIcsSync "https://example.org/cal.ics" (.thrown "network down")).alerts ≠ [] ∨
      (handleIcsSync "https://example.org/cal.ics" (.thrown "network down")).storedError ≠ none :=
  (network_errors_handled_at_call_site.1 "https://example.org/cal.ics"
    (.thrown "network down")).2.2 "network down" rfl

/-! ## Gamification storage footprint -/

def STATS_KEY : String := "@studyflow_player_stats"

inductive StoreOp where
  | get (key : String)
  | set (key : String)
deriving Repr, DecidableEq

def StoreOp.key : StoreOp → String
  | .get k => k
  | .set k => k

/-- The AsyncStorage operations each gamification function performs, in
order: `loadPlayerStats` reads `STATS_KEY` once, `savePlayerStats` writes
it once, and the derived operations are their compositions. -/
def loadPlayerStatsOps : List StoreOp := [.get STATS_KEY]

def savePlayerStatsOps : List StoreOp := [.set STATS_KEY]

def awardXPOps : List StoreOp := loadPlayerStatsOps ++ savePlayerStatsOps

def completeTaskOps : List StoreOp :=
  loadPlayerStatsOps ++ savePlayerStatsOps ++ awardXPOps

def completePomodoroSessionOps : List StoreOp :=
  loadPlayerStatsOps ++ savePlayerStatsOps ++ awardXPOps

/-- C9: every storage operation of the gamification module touches exactly
the single key `@studyflow_player_stats`. -/
theorem gamification_single_key :
    ((loadPlayerStatsOps ++ savePlayerStatsOps ++ awardXPOps ++ completeTaskOps ++
        completePomodoroSessionOps).all
      (fun op => op.key == "@studyflow_player_stats")) = true ∧
    STATS_KEY = "@studyflow_player_stats" := by
  decide

end StudyFlow
